import Mathlib

set_option maxRecDepth 8000

/-!
Shallow embedding of `projc.c`, a single-file command-line scaffolder that
creates a C project layout (`lib`, `src`, `test`, `include`, template
sources and two make files) under a root directory.

Modelling conventions:
  * The filesystem is a pair of a directory list and an association list
    from file paths to file contents.  `stat`-style existence tests become
    membership in either component; `fopen(.., "w")` followed by writes
    becomes prepending a `(path, content)` pair.  `fopen` failure
    (permissions, disk full) is not modelled: the abstract filesystem
    always accepts a write.
  * C strings are Lean `String`s; the claims only involve ASCII, where
    `String.length` agrees with `strlen`.
  * The POSIX branch of the source is modelled: separator `'/'` and
    `PATH_MAX = 4096`.
  * The literal comparisons `ext == ".h"` / `ext == ".c"` in `touch`
    compare pointers of string literals of one translation unit; gcc pools
    identical literals, so they behave as string equality and are modelled
    as such.
  * Byte arithmetic (in `strupper`) is `Nat` arithmetic modulo `2 ^ 8`.
-/

namespace Projc

/-- Platform path-length limit: `PATH_MAX` from `linux/limits.h`. -/
def PATH_MAX : Nat := 4096

/-- Path separator, `static const char sep = '/'` (POSIX branch). -/
def sep : Char := '/'

/-- The separator as the one-character string produced by the `%c`
conversion in the `sprintf` calls of the source. -/
def sepS : String := "/"

/-- Template fragment `GCC_MAKE_MACROS` (macro block, ends in the open
dependency list). -/
def GCC_MAKE_MACROS : String :=
  "IDIR =./include\nCC=gcc\nCFLAGS=-I$(IDIR)\nODIR=obj\nLDIR =./lib\nLIBS=\n\n_DEPS = "

/-- Template fragment `GCC_MAKE_DEPS` (closes the dependency entry with
the `.h` suffix, opens the object list). -/
def GCC_MAKE_DEPS : String :=
  ".h\nDEPS = $(patsubst %,$(IDIR)/%,$(_DEPS))\n\n_OBJ = "

/-- Template fragment `GCC_MAKE_OBJ` (first object suffix). -/
def GCC_MAKE_OBJ : String := ".o "

/-- Template fragment `GCC_MAKE_OBJ_BUILD` (closes the object list and
holds the generic compile rule). -/
def GCC_MAKE_OBJ_BUILD : String :=
  ".o\nOBJ = $(patsubst %,$(ODIR)/%,$(_OBJ))\n\n$(ODIR)/%.o: %.c $(DEPS)\n\t$(CC) -c -o $@ $< $(CFLAGS)\n\n"

/-- Template fragment `GCC_MAKE_PHONY` (link rule for the binary and the
`clean` placeholder). -/
def GCC_MAKE_PHONY : String :=
  ": $(OBJ)\n\tgcc -o $@ $^ $(CFLAGS) $(LIBS)\n\n.PHONY: clean\n\nclean:"

/-- One byte of `strupper`.  The source guard reads
`0x60 < (unsigned char) str[i] < 0x7b`, which C parses as
`(0x60 < c) < 0x7b`: the comparison result `0` or `1` is always below
`0x7b`.  The subtraction is byte arithmetic (the `int` difference is
stored back into a `char`). -/
def strupperByte (c : Nat) : Nat :=
  if (if 0x60 < c then 1 else 0) < 0x7b then (c + 256 - 0x20) % 256 else c

/-- Source function `strupper`: maps `strupperByte` over the bytes of the
argument.  (The source writes into a caller-supplied buffer and does not
NUL-terminate it; the transformed characters themselves are modelled.) -/
def strupper (s : String) : String :=
  String.mk (s.data.map (fun c => Char.ofNat (strupperByte c.toNat)))

/-- Helper for `strslice`: the suffix of a character list strictly after
the last occurrence of `c`, or `none` when `c` does not occur. -/
def afterLast (c : Char) : List Char → Option (List Char)
  | [] => none
  | x :: xs =>
      match afterLast c xs with
      | some r => some r
      | none => if x = c then some xs else none

/-- Source function `strslice`: copies the suffix of `str` after the last
occurrence of the separator character; the source leaves `dest = NULL`
(modelled as `none`) when the separator does not occur. -/
def strslice (s : String) (c : Char) : Option String :=
  (afterLast c s.data).map String.mk

/-- Abstract filesystem state: existing directories and existing files
with their contents. -/
structure FS where
  dirs : List String
  files : List (String × String)
deriving DecidableEq

/-- Existence test (`stat` succeeding): the path names a directory or a
file. -/
def FS.existsPath (fs : FS) (p : String) : Prop :=
  p ∈ fs.dirs ∨ p ∈ fs.files.map Prod.fst

instance (fs : FS) (p : String) : Decidable (fs.existsPath p) := by
  unfold FS.existsPath
  infer_instance

/-- Record a new directory. -/
def FS.addDir (fs : FS) (p : String) : FS :=
  { fs with dirs := p :: fs.dirs }

/-- Record a new file with its content. -/
def FS.addFile (fs : FS) (p c : String) : FS :=
  { fs with files := (p, c) :: fs.files }

/-- Content of the file at a path, if present. -/
def lookupFile : List (String × String) → String → Option String
  | [], _ => none
  | kv :: rest, p => if kv.1 = p then some kv.2 else lookupFile rest p

/-- The content `touch` writes, selected by the extension argument
(string-literal comparison, see the module comment): include-guarded
header for `.h`, header-including source stub for `.c`, comment stub
otherwise. -/
def touchContent (project ext : String) : String :=
  if ext = ".h" then
    "#ifndef " ++ strupper project ++ "_H\n#define " ++ strupper project ++
      "_H\n/* Code goes here */\n\n#endif"
  else if ext = ".c" then
    "#include \"" ++ project ++ ".h\"\n\n/* Code goes here */\n\n"
  else
    "/* Project " ++ project ++ " */"

/-- Source function `touch`: refuses when the combined component lengths
exceed `PATH_MAX`; otherwise builds `path/sep/project + ext` and creates
the file with the rendered content unless it already exists.  The boolean
is the source's `ret` (1 on creation). -/
def touch (path project ext : String) (fs : FS) : FS × Bool :=
  if path.length + project.length + ext.length > PATH_MAX then (fs, false)
  else if fs.existsPath (path ++ sepS ++ project ++ ext) then (fs, false)
  else (fs.addFile (path ++ sepS ++ project ++ ext) (touchContent project ext),
        true)

/-- Source function `touch_wrap`: calls `touch` and prints a status line
before and after. -/
def touch_wrap (path name dir ext : String) (fs : FS) : FS × List String :=
  let r := touch path name ext fs
  (r.1,
    ("Creating file " ++ name ++ ext ++ " in " ++ dir ++ " directory...\n") ::
      (if r.2 then [name ++ ext ++ " created in " ++ dir ++ "\n"]
       else ["Failed to create " ++ name ++ ext ++ " in " ++ dir ++ "\n"]))

/-- Source function `create_dir`: length check, then create
`dirname/sep/destname` unless present. -/
def create_dir (dirname destname : String) (fs : FS) : FS × Bool :=
  if dirname.length + destname.length > PATH_MAX then (fs, false)
  else if fs.existsPath (dirname ++ sepS ++ destname) then (fs, false)
  else (fs.addDir (dirname ++ sepS ++ destname), true)

/-- One iteration of the loop in `create_tree`, with its printed lines
(the `sprintf` into `tmp` overwrites the `"Creating "` prefix, so the
first line is just `"<dir> directory..."`). -/
def tree_step (dirname d : String) (fs : FS) : FS × List String :=
  let r := create_dir dirname d fs
  (r.1,
    (d ++ " directory...\n") ::
      (if r.2 then ["Directory " ++ d ++ " created.\n"]
       else ["Failed to create " ++ d ++ " directory." ++
             " Directory already exists or path exceeds MAX_PATH.\n"]))

/-- Source function `create_tree`: the four directories in order. -/
def create_tree (dirname : String) (fs : FS) : FS × List String :=
  let r1 := tree_step dirname "lib" fs
  let r2 := tree_step dirname "src" r1.1
  let r3 := tree_step dirname "test" r2.1
  let r4 := tree_step dirname "include" r3.1
  (r4.1, r1.2 ++ r2.2 ++ r3.2 ++ r4.2)

/-- The make file text assembled by the `sprintf` in `makefile_create`:
`"%s%s%s%s%s%s_test%s%s_app%s"` applied to the five template fragments
and the project name. -/
def make_contents (project : String) : String :=
  GCC_MAKE_MACROS ++ project ++ GCC_MAKE_DEPS ++ project ++ GCC_MAKE_OBJ ++
    project ++ "_test" ++ GCC_MAKE_OBJ_BUILD ++ project ++ "_app" ++
    GCC_MAKE_PHONY

/-- Source function `makefile_create`: builds `dirname/sep/makename` with
no length check (the source `sprintf`s straight into a `PATH_MAX` buffer)
and creates it with `make_contents project` unless it already exists. -/
def makefile_create (makename project dirname : String) (fs : FS) : FS × Bool :=
  if fs.existsPath (dirname ++ sepS ++ makename) then (fs, false)
  else (fs.addFile (dirname ++ sepS ++ makename) (make_contents project), true)

/-- One iteration of the loop in `create_makes`, with its printed
lines. -/
def make_step (mk dirname project : String) (fs : FS) : FS × List String :=
  let r := makefile_create mk project dirname fs
  (r.1,
    ("Creating " ++ mk ++ "...") ::
      (if r.2 then [mk ++ " was created."]
       else ["Failed to create " ++ mk ++ "; " ++ mk ++ " may already exist."]))

/-- Source function `create_makes`: `Makefile` then `Makefile.win`. -/
def create_makes (dirname project : String) (fs : FS) : FS × List String :=
  let r1 := make_step "Makefile" dirname project fs
  let r2 := make_step "Makefile.win" dirname project r1.1
  (r2.1, r1.2 ++ r2.2)

/-- Source function `create_files`.  The `tmp` buffer manipulation
(`sprintf`, then `strclr` from `strlen(dirname) + 1` followed by
`strcat`) successively produces `dirname/sep/lib`, `dirname/sep/src`,
`dirname/sep/test`.  The loop runs `i = 0, 1, 2` over
`{"lib", "src", "test"}` with the plain `.c` file in the `default`
branch, hit at `i = 0` (directory `lib`). -/
def create_files (dirname project : String) (fs : FS) : FS × List String :=
  let r1 := touch_wrap (dirname ++ sepS ++ "lib") project "lib" ".h" fs
  let r2 := touch_wrap (dirname ++ sepS ++ "lib") project "lib" ".c" r1.1
  let r3 := touch_wrap (dirname ++ sepS ++ "src") (project ++ "_app") "src" ".c" r2.1
  let r4 := touch_wrap (dirname ++ sepS ++ "test") (project ++ "_test") "test" ".c" r3.1
  (r4.1, r1.2 ++ r2.2 ++ r3.2 ++ r4.2)

/-- The scaffolding run of `main` after argument handling:
`create_tree`, `create_files`, `create_makes`. -/
def scaffold (dirname project : String) (fs : FS) : FS × List String :=
  let r1 := create_tree dirname fs
  let r2 := create_files dirname project r1.1
  let r3 := create_makes dirname project r2.1
  (r3.1, r1.2 ++ r2.2 ++ r3.2)

/-- Environment for the OS-dependent pieces of `main`: the behaviour of
`abspath` (`none` models canonicalisation failure, where the output
buffer is left unspecified) and the initial contents of the two
uninitialised stack buffers. -/
structure Env where
  resolve : String → Option String
  dirnameBuf : String
  projectBuf : String

/-- The test `dirname == NULL` in `main` compares the address of the
local array `dirname` to `NULL`; a local array never decays to a null
pointer, so the test is constantly false. -/
def local_array_is_null : Bool := false

/-- Source function `main`, as exit-code, final filesystem and printed
lines.  With one positional argument the project name is the argument as
given and the root is `abspath` of it (the error branch is guarded by
`local_array_is_null`); with none the root is `abspath(".")` and the
project name is the final path segment (garbage from the uninitialised
buffer when there is no separator); any other count returns 1 at
`ERRORQUIT`, whose `print_help()` call is commented out, so nothing is
printed. -/
def main (env : Env) (argv : List String) (fs : FS) : Nat × FS × List String :=
  match argv with
  | [_prog, arg] =>
      let dirname := (env.resolve arg).getD env.dirnameBuf
      let project := arg
      if local_array_is_null then (1, fs, [])
      else
        let r := scaffold dirname project fs
        (0, r.1, r.2)
  | [_prog] =>
      let dirname := (env.resolve ".").getD env.dirnameBuf
      let project := (strslice dirname sep).getD env.projectBuf
      let r := scaffold dirname project fs
      (0, r.1, r.2)
  | _ => (1, fs, [])

/-- Non-overlapping-agnostic occurrence count of a pattern in a character
list (each position starting an occurrence is counted once). -/
def countOccs (needle : List Char) : List Char → Nat
  | [] => 0
  | c :: rest =>
      (if needle.isPrefixOf (c :: rest) then 1 else 0) + countOccs needle rest

/-- An environment in which `abspath` always fails (the supplied path
cannot be canonicalised) and the uninitialised buffers happen to hold
empty strings. -/
def env0 : Env := ⟨fun _ => none, "", ""⟩

/-- A root path longer than `PATH_MAX`. -/
def longDir : String := String.mk (List.replicate 4100 'a')

/-- All targets of a scaffolding run on root `d` with project `p` are
present, whenever their creating step's own length guard lets the step
run (the two make files carry no guard). -/
def Scaffolded (d p : String) (fs : FS) : Prop :=
  (¬ (d.length + ("lib" : String).length > PATH_MAX) →
    fs.existsPath (d ++ sepS ++ "lib")) ∧
  (¬ (d.length + ("src" : String).length > PATH_MAX) →
    fs.existsPath (d ++ sepS ++ "src")) ∧
  (¬ (d.length + ("test" : String).length > PATH_MAX) →
    fs.existsPath (d ++ sepS ++ "test")) ∧
  (¬ (d.length + ("include" : String).length > PATH_MAX) →
    fs.existsPath (d ++ sepS ++ "include")) ∧
  (¬ ((d ++ sepS ++ "lib").length + p.length + (".h" : String).length > PATH_MAX) →
    fs.existsPath (d ++ sepS ++ "lib" ++ sepS ++ p ++ ".h")) ∧
  (¬ ((d ++ sepS ++ "lib").length + p.length + (".c" : String).length > PATH_MAX) →
    fs.existsPath (d ++ sepS ++ "lib" ++ sepS ++ p ++ ".c")) ∧
  (¬ ((d ++ sepS ++ "src").length + (p ++ "_app").length + (".c" : String).length > PATH_MAX) →
    fs.existsPath (d ++ sepS ++ "src" ++ sepS ++ (p ++ "_app") ++ ".c")) ∧
  (¬ ((d ++ sepS ++ "test").length + (p ++ "_test").length + (".c" : String).length > PATH_MAX) →
    fs.existsPath (d ++ sepS ++ "test" ++ sepS ++ (p ++ "_test") ++ ".c")) ∧
  fs.existsPath (d ++ sepS ++ "Makefile") ∧
  fs.existsPath (d ++ sepS ++ "Makefile.win")

end Projc

namespace Projc

/-- C1: a full run on root `/r` with project `demo` produces directories
`lib`, `src`, `test`, `include` and files `lib/demo.h`, `lib/demo.c`,
`src/demo_app.c`, `test/demo_test.c`, `Makefile`, `Makefile.win`, each
with non-empty content — the plain source `demo.c` lands in `lib`, and
`src/demo.c` is never created, contrary to the claimed layout (the
`create_files` loop starts at `i = 0`, so its `default` branch fires for
the `lib` directory). -/
theorem C1_layout :
    (scaffold "/r" "demo" ⟨[], []⟩).1.dirs =
      ["/r/include", "/r/test", "/r/src", "/r/lib"] ∧
    (scaffold "/r" "demo" ⟨[], []⟩).1.files.map Prod.fst =
      ["/r/Makefile.win", "/r/Makefile", "/r/test/demo_test.c",
       "/r/src/demo_app.c", "/r/lib/demo.c", "/r/lib/demo.h"] ∧
    lookupFile (scaffold "/r" "demo" ⟨[], []⟩).1.files "/r/src/demo.c" = none ∧
    (∀ kv ∈ (scaffold "/r" "demo" ⟨[], []⟩).1.files, kv.2 ≠ "") := by
  decide

/-- C4: `strupper` does not fix non-letters: on `"my_proj1"` it yields
the bytes `M Y ? P R O J 0x11`, not `"MY_PROJ1"` — the source's guard
`0x60 < c < 0x7b` parses as `(0x60 < c) < 0x7b`, which is always true, so
every byte is shifted down by `0x20`. -/
theorem C4_strupper_shift :
    strupper "my_proj1" ≠ "MY_PROJ1" ∧
    (strupper "my_proj1").data.map Char.toNat =
      [0x4d, 0x59, 0x3f, 0x50, 0x52, 0x4f, 0x4a, 0x11] := by
  decide

/-- C8: when the supplied path cannot be canonicalised, the program does
not exit with status 1 before creating artifacts: the `dirname == NULL`
test compares a local array to `NULL` and is constantly false, so the run
proceeds on the leftover buffer contents, creates files, and exits 0. -/
theorem C8_resolution_failure_ignored :
    (Projc.main env0 ["projc", "missing"] ⟨[], []⟩).1 = 0 ∧
    (Projc.main env0 ["projc", "missing"] ⟨[], []⟩).2.1.files ≠ [] := by
  decide

/-- C9: `makefile_create` performs no path-length check: on a root longer
than `PATH_MAX` it still creates the make file, while `touch` on the same
root refuses and leaves the filesystem unchanged. -/
theorem C9_makefile_unchecked_length :
    PATH_MAX < longDir.length + ("Makefile" : String).length ∧
    (makefile_create "Makefile" "demo" longDir ⟨[], []⟩).1.files ≠ [] ∧
    (touch longDir "demo" ".c" ⟨[], []⟩).1 = ⟨[], []⟩ := by
  have h1 : longDir.length = 4100 := by
    show (String.mk (List.replicate 4100 'a')).length = 4100
    rw [String.length_mk, List.length_replicate]
  refine ⟨?_, ?_, ?_⟩
  · rw [h1, show ("Makefile" : String).length = 8 from rfl]
    norm_num [PATH_MAX]
  · simp [makefile_create, FS.existsPath, FS.addFile]
  · have h2 : ("demo" : String).length = 4 := rfl
    have h3 : (".c" : String).length = 2 := rfl
    simp [touch, h1, h2, h3, PATH_MAX]

/-- C3, counterexample: for project `demo` the generated make text does
not list `demo_test.o` as the sole object — the object list is
`_OBJ = demo.o demo_test.o` — and `demo` is interpolated at four
substitution points, not three. -/
theorem C3_cex :
    ¬ (("_OBJ = demo_test.o\n".data <:+: (make_contents "demo").data) ∧
       countOccs "demo".data (make_contents "demo").data = 3) := by
  decide

/-- C5, counterexample: on a full run with project `demo`, the file
`test/demo_test.c` holds the Source rendering for the name `demo_test`
(it contains `#include "demo_test.h"`), not the Generic one-line comment
stub, and its content does contain an `#include`. -/
theorem C5_cex :
    lookupFile (scaffold "/r" "demo" ⟨[], []⟩).1.files "/r/test/demo_test.c" =
      some "#include \"demo_test.h\"\n\n/* Code goes here */\n\n" ∧
    ("#include".data <:+:
      "#include \"demo_test.h\"\n\n/* Code goes here */\n\n".data) ∧
    touchContent "demo_test" ".c" ≠ "/* Project demo_test */" := by
  decide

/-- C6, counterexample: on a full run with project `demo`, the file
`src/demo_app.c` includes `demo_app.h`, not the project header `demo.h`
(`touch` renders the include from the name it is given, which already
carries the `_app` suffix). -/
theorem C6_cex :
    lookupFile (scaffold "/r" "demo" ⟨[], []⟩).1.files "/r/src/demo_app.c" =
      some "#include \"demo_app.h\"\n\n/* Code goes here */\n\n" ∧
    ¬ ("#include \"demo.h\"".data <:+:
        "#include \"demo_app.h\"\n\n/* Code goes here */\n\n".data) := by
  decide

/-- C7, counterexample: with two positional arguments the program exits 1
and creates nothing, but prints nothing at all — the `print_help()` call
at `ERRORQUIT` is commented out, so no usage message is produced. -/
theorem C7_cex :
    (Projc.main env0 ["projc", "a", "b"] ⟨[], []⟩).1 = 1 ∧
    (Projc.main env0 ["projc", "a", "b"] ⟨[], []⟩).2.1 = ⟨[], []⟩ ∧
    (Projc.main env0 ["projc", "a", "b"] ⟨[], []⟩).2.2 = [] := by
  decide

/-- Two strings of different lengths differ. -/
theorem ne_of_length {a b : String} (h : a.length ≠ b.length) : a ≠ b :=
  fun e => h (congrArg String.length e)

/-- A successful lookup means the key is present. -/
theorem lookup_mem {l : List (String × String)} {q c : String}
    (h : lookupFile l q = some c) : q ∈ l.map Prod.fst := by
  induction l with
  | nil => simp [lookupFile] at h
  | cons kv rest ih =>
      rw [lookupFile] at h
      split at h
      · simp_all
      · simp only [List.map_cons, List.mem_cons]
        exact Or.inr (ih h)

/-- Function `touch` leaves the filesystem unchanged when its length guard fires
or its target exists. -/
theorem touch_skip (path proj ext : String) (fs : FS)
    (h : path.length + proj.length + ext.length > PATH_MAX ∨
      fs.existsPath (path ++ sepS ++ proj ++ ext)) :
    (touch path proj ext fs).1 = fs := by
  unfold touch
  by_cases hl : path.length + proj.length + ext.length > PATH_MAX
  · simp [hl]
  · simp [hl, h.resolve_left hl]

/-- Function `touch` preserves existing paths. -/
theorem touch_mono (path proj ext q : String) (fs : FS)
    (h : fs.existsPath q) : (touch path proj ext fs).1.existsPath q := by
  unfold touch
  split
  · exact h
  · split
    · exact h
    · simp only [FS.existsPath, FS.addFile, List.map_cons, List.mem_cons] at h ⊢
      tauto

/-- A path existing after `touch` existed before or is the file `touch`
creates. -/
theorem touch_sub (path proj ext q : String) (fs : FS)
    (h : (touch path proj ext fs).1.existsPath q) :
    fs.existsPath q ∨ q = path ++ sepS ++ proj ++ ext := by
  unfold touch at h
  split at h
  · exact Or.inl h
  · split at h
    · exact Or.inl h
    · simp only [FS.existsPath, FS.addFile, List.map_cons, List.mem_cons] at h
      rcases h with h | h | h
      · exact Or.inl (Or.inl h)
      · exact Or.inr h
      · exact Or.inl (Or.inr h)

/-- Function `touch` never alters the content of an existing file. -/
theorem touch_keep (path proj ext q c : String) (fs : FS)
    (h : lookupFile fs.files q = some c) :
    lookupFile (touch path proj ext fs).1.files q = some c := by
  unfold touch
  split
  · exact h
  · split
    · exact h
    · next hne =>
      have hq : q ∈ fs.files.map Prod.fst := lookup_mem h
      have hne2 : ¬ (path ++ sepS ++ proj ++ ext = q) := by
        intro e
        exact hne (Or.inr (e ▸ hq))
      simpa [FS.addFile, lookupFile, hne2] using h

/-- Within its length guard, `touch` guarantees its target exists
afterwards. -/
theorem touch_ensures (path proj ext : String) (fs : FS)
    (h : ¬ (path.length + proj.length + ext.length > PATH_MAX)) :
    (touch path proj ext fs).1.existsPath (path ++ sepS ++ proj ++ ext) := by
  unfold touch
  rw [if_neg h]
  split
  · assumption
  · simp [FS.existsPath, FS.addFile]

/-- Function `create_dir` leaves the filesystem unchanged when its length guard
fires or its target exists. -/
theorem create_dir_skip (d n : String) (fs : FS)
    (h : d.length + n.length > PATH_MAX ∨ fs.existsPath (d ++ sepS ++ n)) :
    (create_dir d n fs).1 = fs := by
  unfold create_dir
  by_cases hl : d.length + n.length > PATH_MAX
  · simp [hl]
  · simp [hl, h.resolve_left hl]

/-- Function `create_dir` preserves existing paths. -/
theorem create_dir_mono (d n q : String) (fs : FS)
    (h : fs.existsPath q) : (create_dir d n fs).1.existsPath q := by
  unfold create_dir
  split
  · exact h
  · split
    · exact h
    · simp only [FS.existsPath, FS.addDir, List.mem_cons] at h ⊢
      tauto

/-- Function `create_dir` never alters the content of an existing file. -/
theorem create_dir_keep (d n q c : String) (fs : FS)
    (h : lookupFile fs.files q = some c) :
    lookupFile (create_dir d n fs).1.files q = some c := by
  unfold create_dir
  split
  · exact h
  · split
    · exact h
    · simpa [FS.addDir] using h

/-- Within its length guard, `create_dir` guarantees its target exists
afterwards. -/
theorem create_dir_ensures (d n : String) (fs : FS)
    (h : ¬ (d.length + n.length > PATH_MAX)) :
    (create_dir d n fs).1.existsPath (d ++ sepS ++ n) := by
  unfold create_dir
  rw [if_neg h]
  split
  · assumption
  · simp [FS.existsPath, FS.addDir]

/-- When its guard passes and the target is fresh, `touch` creates the
target file with the rendered content. -/
theorem touch_create (path proj ext : String) (fs : FS)
    (hl : ¬ (path.length + proj.length + ext.length > PATH_MAX))
    (he : ¬ fs.existsPath (path ++ sepS ++ proj ++ ext)) :
    touch path proj ext fs =
      (fs.addFile (path ++ sepS ++ proj ++ ext) (touchContent proj ext),
       true) := by
  unfold touch
  rw [if_neg hl, if_neg he]

/-- Function `makefile_create` leaves the filesystem unchanged when its target
exists. -/
theorem makefile_skip (mk p d : String) (fs : FS)
    (h : fs.existsPath (d ++ sepS ++ mk)) :
    (makefile_create mk p d fs).1 = fs := by
  unfold makefile_create
  simp [h]

/-- Function `makefile_create` preserves existing paths. -/
theorem makefile_mono (mk p d q : String) (fs : FS)
    (h : fs.existsPath q) : (makefile_create mk p d fs).1.existsPath q := by
  unfold makefile_create
  split
  · exact h
  · simp only [FS.existsPath, FS.addFile, List.map_cons, List.mem_cons] at h ⊢
    tauto

/-- Function `makefile_create` never alters the content of an existing file. -/
theorem makefile_keep (mk p d q c : String) (fs : FS)
    (h : lookupFile fs.files q = some c) :
    lookupFile (makefile_create mk p d fs).1.files q = some c := by
  unfold makefile_create
  split
  · exact h
  · next hne =>
    have hq : q ∈ fs.files.map Prod.fst := lookup_mem h
    have hne2 : ¬ (d ++ sepS ++ mk = q) := by
      intro e
      exact hne (Or.inr (e ▸ hq))
    simpa [FS.addFile, lookupFile, hne2] using h

/-- Function `makefile_create` guarantees its target exists afterwards: it has no
length guard at all. -/
theorem makefile_ensures (mk p d : String) (fs : FS) :
    (makefile_create mk p d fs).1.existsPath (d ++ sepS ++ mk) := by
  unfold makefile_create
  split
  · assumption
  · simp [FS.existsPath, FS.addFile]

/-- The filesystem effect of a whole run is the composition of its ten
creation steps (the printing wrappers pass the state straight
through). -/
theorem scaffold_fst (d p : String) (fs : FS) :
    (scaffold d p fs).1 =
      (makefile_create "Makefile.win" p d
        (makefile_create "Makefile" p d
          (touch (d ++ sepS ++ "test") (p ++ "_test") ".c"
            (touch (d ++ sepS ++ "src") (p ++ "_app") ".c"
              (touch (d ++ sepS ++ "lib") p ".c"
                (touch (d ++ sepS ++ "lib") p ".h"
                  (create_dir d "include"
                    (create_dir d "test"
                      (create_dir d "src"
                        (create_dir d "lib" fs).1).1).1).1).1).1).1).1).1).1 :=
  rfl

/-- After a run, every target whose step's guard lets it run exists. -/
theorem scaffold_scaffolded (d p : String) (fs : FS) :
    Scaffolded d p (scaffold d p fs).1 := by
  rw [scaffold_fst]
  refine ⟨?_, ?_, ?_, ?_, ?_, ?_, ?_, ?_, ?_, ?_⟩
  · intro hg
    exact makefile_mono _ _ _ _ _ (makefile_mono _ _ _ _ _
      (touch_mono _ _ _ _ _ (touch_mono _ _ _ _ _ (touch_mono _ _ _ _ _
        (touch_mono _ _ _ _ _ (create_dir_mono _ _ _ _ (create_dir_mono _ _ _ _
          (create_dir_mono _ _ _ _ (create_dir_ensures _ _ _ hg)))))))))
  · intro hg
    exact makefile_mono _ _ _ _ _ (makefile_mono _ _ _ _ _
      (touch_mono _ _ _ _ _ (touch_mono _ _ _ _ _ (touch_mono _ _ _ _ _
        (touch_mono _ _ _ _ _ (create_dir_mono _ _ _ _ (create_dir_mono _ _ _ _
          (create_dir_ensures _ _ _ hg))))))))
  · intro hg
    exact makefile_mono _ _ _ _ _ (makefile_mono _ _ _ _ _
      (touch_mono _ _ _ _ _ (touch_mono _ _ _ _ _ (touch_mono _ _ _ _ _
        (touch_mono _ _ _ _ _ (create_dir_mono _ _ _ _
          (create_dir_ensures _ _ _ hg)))))))
  · intro hg
    exact makefile_mono _ _ _ _ _ (makefile_mono _ _ _ _ _
      (touch_mono _ _ _ _ _ (touch_mono _ _ _ _ _ (touch_mono _ _ _ _ _
        (touch_mono _ _ _ _ _ (create_dir_ensures _ _ _ hg))))))
  · intro hg
    exact makefile_mono _ _ _ _ _ (makefile_mono _ _ _ _ _
      (touch_mono _ _ _ _ _ (touch_mono _ _ _ _ _ (touch_mono _ _ _ _ _
        (touch_ensures _ _ _ _ hg)))))
  · intro hg
    exact makefile_mono _ _ _ _ _ (makefile_mono _ _ _ _ _
      (touch_mono _ _ _ _ _ (touch_mono _ _ _ _ _
        (touch_ensures _ _ _ _ hg))))
  · intro hg
    exact makefile_mono _ _ _ _ _ (makefile_mono _ _ _ _ _
      (touch_mono _ _ _ _ _ (touch_ensures _ _ _ _ hg)))
  · intro hg
    exact makefile_mono _ _ _ _ _ (makefile_mono _ _ _ _ _
      (touch_ensures _ _ _ _ hg))
  · exact makefile_mono _ _ _ _ _ (makefile_ensures _ _ _ _)
  · exact makefile_ensures _ _ _ _

/-- On a state where every target is already settled, a run changes
nothing. -/
theorem scaffold_skip (d p : String) (fs : FS) (h : Scaffolded d p fs) :
    (scaffold d p fs).1 = fs := by
  obtain ⟨h1, h2, h3, h4, h5, h6, h7, h8, h9, h10⟩ := h
  have g1 : (create_dir d "lib" fs).1 = fs := by
    by_cases hl : d.length + ("lib" : String).length > PATH_MAX
    · exact create_dir_skip _ _ _ (Or.inl hl)
    · exact create_dir_skip _ _ _ (Or.inr (h1 hl))
  have g2 : (create_dir d "src" fs).1 = fs := by
    by_cases hl : d.length + ("src" : String).length > PATH_MAX
    · exact create_dir_skip _ _ _ (Or.inl hl)
    · exact create_dir_skip _ _ _ (Or.inr (h2 hl))
  have g3 : (create_dir d "test" fs).1 = fs := by
    by_cases hl : d.length + ("test" : String).length > PATH_MAX
    · exact create_dir_skip _ _ _ (Or.inl hl)
    · exact create_dir_skip _ _ _ (Or.inr (h3 hl))
  have g4 : (create_dir d "include" fs).1 = fs := by
    by_cases hl : d.length + ("include" : String).length > PATH_MAX
    · exact create_dir_skip _ _ _ (Or.inl hl)
    · exact create_dir_skip _ _ _ (Or.inr (h4 hl))
  have g5 : (touch (d ++ sepS ++ "lib") p ".h" fs).1 = fs := by
    by_cases hl : (d ++ sepS ++ "lib").length + p.length + (".h" : String).length > PATH_MAX
    · exact touch_skip _ _ _ _ (Or.inl hl)
    · exact touch_skip _ _ _ _ (Or.inr (h5 hl))
  have g6 : (touch (d ++ sepS ++ "lib") p ".c" fs).1 = fs := by
    by_cases hl : (d ++ sepS ++ "lib").length + p.length + (".c" : String).length > PATH_MAX
    · exact touch_skip _ _ _ _ (Or.inl hl)
    · exact touch_skip _ _ _ _ (Or.inr (h6 hl))
  have g7 : (touch (d ++ sepS ++ "src") (p ++ "_app") ".c" fs).1 = fs := by
    by_cases hl : (d ++ sepS ++ "src").length + (p ++ "_app").length + (".c" : String).length > PATH_MAX
    · exact touch_skip _ _ _ _ (Or.inl hl)
    · exact touch_skip _ _ _ _ (Or.inr (h7 hl))
  have g8 : (touch (d ++ sepS ++ "test") (p ++ "_test") ".c" fs).1 = fs := by
    by_cases hl : (d ++ sepS ++ "test").length + (p ++ "_test").length + (".c" : String).length > PATH_MAX
    · exact touch_skip _ _ _ _ (Or.inl hl)
    · exact touch_skip _ _ _ _ (Or.inr (h8 hl))
  have g9 : (makefile_create "Makefile" p d fs).1 = fs :=
    makefile_skip _ _ _ _ h9
  have g10 : (makefile_create "Makefile.win" p d fs).1 = fs :=
    makefile_skip _ _ _ _ h10
  rw [scaffold_fst, g1, g2, g3, g4, g5, g6, g7, g8, g9, g10]

/-- A run never alters the content of a pre-existing file. -/
theorem scaffold_keep (d p q c : String) (fs : FS)
    (h : lookupFile fs.files q = some c) :
    lookupFile (scaffold d p fs).1.files q = some c := by
  rw [scaffold_fst]
  exact makefile_keep _ _ _ _ _ _ (makefile_keep _ _ _ _ _ _
    (touch_keep _ _ _ _ _ _ (touch_keep _ _ _ _ _ _ (touch_keep _ _ _ _ _ _
      (touch_keep _ _ _ _ _ _ (create_dir_keep _ _ _ _ _
        (create_dir_keep _ _ _ _ _ (create_dir_keep _ _ _ _ _
          (create_dir_keep _ _ _ _ _ h)))))))))

/-- C2: running the scaffolder twice on the same root with the same
project name yields the same filesystem as running it once, and a run
never alters the content of any pre-existing file. -/
theorem C2_idempotent (d p : String) (fs : FS) :
    (scaffold d p (scaffold d p fs).1).1 = (scaffold d p fs).1 ∧
    (∀ q c, lookupFile fs.files q = some c →
      lookupFile (scaffold d p fs).1.files q = some c) :=
  ⟨scaffold_skip d p _ (scaffold_scaffolded d p fs),
   fun q c h => scaffold_keep d p q c fs h⟩

/-- C2, witness: a concrete double run on a filesystem holding one
pre-existing file. -/
theorem C2_idempotent_witness :
    (scaffold "/r" "demo" (scaffold "/r" "demo" ⟨[], [("/r/keep", "K")]⟩).1).1 =
      (scaffold "/r" "demo" ⟨[], [("/r/keep", "K")]⟩).1 ∧
    lookupFile (scaffold "/r" "demo" ⟨[], [("/r/keep", "K")]⟩).1.files
      "/r/keep" = some "K" :=
  ⟨(C2_idempotent "/r" "demo" ⟨[], [("/r/keep", "K")]⟩).1,
   (C2_idempotent "/r" "demo" ⟨[], [("/r/keep", "K")]⟩).2 "/r/keep" "K"
     (by decide)⟩

/-- C10: `create_makes` writes byte-identical content to `Makefile` and
`Makefile.win` — the variant name only selects the output path, while
the text is `make_contents project` in both cases. -/
theorem C10_variants_identical (d p : String) (fs : FS)
    (hM : ¬ fs.existsPath (d ++ sepS ++ "Makefile"))
    (hW : ¬ fs.existsPath (d ++ sepS ++ "Makefile.win")) :
    lookupFile (create_makes d p fs).1.files (d ++ sepS ++ "Makefile") =
      some (make_contents p) ∧
    lookupFile (create_makes d p fs).1.files (d ++ sepS ++ "Makefile.win") =
      some (make_contents p) := by
  have hne : (d ++ sepS ++ "Makefile") ≠ (d ++ sepS ++ "Makefile.win") := by
    apply ne_of_length
    simp only [String.length_append,
      show ("Makefile" : String).length = 8 from rfl,
      show ("Makefile.win" : String).length = 12 from rfl]
    omega
  have hfst : (create_makes d p fs).1 =
      (makefile_create "Makefile.win" p d
        (makefile_create "Makefile" p d fs).1).1 := rfl
  have e1 : (makefile_create "Makefile" p d fs).1 =
      fs.addFile (d ++ sepS ++ "Makefile") (make_contents p) := by
    unfold makefile_create
    rw [if_neg hM]
  have hW2 : ¬ (fs.addFile (d ++ sepS ++ "Makefile")
      (make_contents p)).existsPath (d ++ sepS ++ "Makefile.win") := by
    simp only [FS.existsPath, FS.addFile, List.map_cons, List.mem_cons]
    simp only [FS.existsPath] at hW
    push_neg at hW ⊢
    exact ⟨hW.1, fun e => absurd e.symm hne, hW.2⟩
  have e2 : (makefile_create "Makefile.win" p d
      (fs.addFile (d ++ sepS ++ "Makefile") (make_contents p))).1 =
      (fs.addFile (d ++ sepS ++ "Makefile") (make_contents p)).addFile
        (d ++ sepS ++ "Makefile.win") (make_contents p) := by
    unfold makefile_create
    rw [if_neg hW2]
  rw [hfst, e1, e2]
  constructor
  · simp only [FS.addFile, lookupFile]
    simp [fun e : d ++ sepS ++ "Makefile.win" = d ++ sepS ++ "Makefile" =>
      hne e.symm]
  · simp [FS.addFile, lookupFile]

/-- C10, witness: both make files of a concrete run hold the same
text. -/
theorem C10_variants_identical_witness :
    lookupFile (create_makes "/r" "demo" ⟨[], []⟩).1.files "/r/Makefile" =
      some (make_contents "demo") ∧
    lookupFile (create_makes "/r" "demo" ⟨[], []⟩).1.files "/r/Makefile.win" =
      some (make_contents "demo") :=
  C10_variants_identical "/r" "demo" ⟨[], []⟩ (by decide) (by decide)

/-- C7 (amended): with two or more positional arguments (so at least
three `argv` entries) the program exits with status 1, creates no files
or directories, and prints nothing — the usage-printing call at
`ERRORQUIT` is commented out in the source. -/
theorem C7_error_exit (env : Env) (argv : List String) (fs : FS)
    (h : 3 ≤ argv.length) :
    Projc.main env argv fs = (1, fs, []) := by
  rcases argv with _ | ⟨a, _ | ⟨b, _ | ⟨c, rest⟩⟩⟩
  · simp at h
  · simp at h
  · simp at h
  · rfl

/-- C7, witness: concrete three-entry argument vector. -/
theorem C7_error_exit_witness :
    3 ≤ (["projc", "a", "b"] : List String).length ∧
    Projc.main env0 ["projc", "a", "b"] ⟨[], []⟩ = (1, ⟨[], []⟩, []) :=
  ⟨by decide, C7_error_exit env0 ["projc", "a", "b"] ⟨[], []⟩ (by decide)⟩

/-- C5 (amended): within the length guard and on a filesystem not
already holding it, the test-directory file `p_test.c` is created with
the Source rendering applied to the `_test`-suffixed name: its content
is an `#include` of `p_test.h` followed by the stub comment, not the
Generic one-line stub. -/
theorem C5_test_file_source_rendering (d p : String) (fs : FS)
    (hlen : ¬ ((d ++ sepS ++ "test").length + (p ++ "_test").length +
      (".c" : String).length > PATH_MAX))
    (hT : ¬ fs.existsPath
      (d ++ sepS ++ "test" ++ sepS ++ (p ++ "_test") ++ ".c")) :
    lookupFile (create_files d p fs).1.files
        (d ++ sepS ++ "test" ++ sepS ++ (p ++ "_test") ++ ".c") =
      some ("#include \"" ++ (p ++ "_test") ++
        ".h\"\n\n/* Code goes here */\n\n") := by
  have hTL0 : (d ++ sepS ++ "test" ++ sepS ++ (p ++ "_test") ++ ".c") ≠
      (d ++ sepS ++ "lib") ++ sepS ++ p ++ ".h" := by
    apply ne_of_length
    simp only [String.length_append,
      show sepS.length = 1 from rfl,
      show ("test" : String).length = 4 from rfl,
      show ("lib" : String).length = 3 from rfl,
      show ("_test" : String).length = 5 from rfl,
      show (".c" : String).length = 2 from rfl,
      show (".h" : String).length = 2 from rfl]
    omega
  have hTL1 : (d ++ sepS ++ "test" ++ sepS ++ (p ++ "_test") ++ ".c") ≠
      (d ++ sepS ++ "lib") ++ sepS ++ p ++ ".c" := by
    apply ne_of_length
    simp only [String.length_append,
      show sepS.length = 1 from rfl,
      show ("test" : String).length = 4 from rfl,
      show ("lib" : String).length = 3 from rfl,
      show ("_test" : String).length = 5 from rfl,
      show (".c" : String).length = 2 from rfl]
    omega
  have hTA : (d ++ sepS ++ "test" ++ sepS ++ (p ++ "_test") ++ ".c") ≠
      (d ++ sepS ++ "src") ++ sepS ++ (p ++ "_app") ++ ".c" := by
    apply ne_of_length
    simp only [String.length_append,
      show sepS.length = 1 from rfl,
      show ("test" : String).length = 4 from rfl,
      show ("src" : String).length = 3 from rfl,
      show ("_test" : String).length = 5 from rfl,
      show ("_app" : String).length = 4 from rfl,
      show (".c" : String).length = 2 from rfl]
    omega
  have hfst : (create_files d p fs).1 =
      (touch (d ++ sepS ++ "test") (p ++ "_test") ".c"
        (touch (d ++ sepS ++ "src") (p ++ "_app") ".c"
          (touch (d ++ sepS ++ "lib") p ".c"
            (touch (d ++ sepS ++ "lib") p ".h" fs).1).1).1).1 := rfl
  rw [hfst]
  have hT3 : ¬ (touch (d ++ sepS ++ "src") (p ++ "_app") ".c"
      (touch (d ++ sepS ++ "lib") p ".c"
        (touch (d ++ sepS ++ "lib") p ".h" fs).1).1).1.existsPath
      (d ++ sepS ++ "test" ++ sepS ++ (p ++ "_test") ++ ".c") := by
    intro hc
    rcases touch_sub _ _ _ _ _ hc with hc | hc
    · rcases touch_sub _ _ _ _ _ hc with hc | hc
      · rcases touch_sub _ _ _ _ _ hc with hc | hc
        · exact hT hc
        · exact hTL0 hc
      · exact hTL1 hc
    · exact hTA hc
  rw [touch_create _ _ _ _ hlen hT3]
  simp only [FS.addFile, lookupFile]
  rw [if_pos trivial,
    show touchContent (p ++ "_test") ".c" =
      "#include \"" ++ (p ++ "_test") ++ ".h\"\n\n/* Code goes here */\n\n" by
        unfold touchContent
        rw [if_neg (by decide), if_pos rfl]]

/-- C5, witness: concrete run on an empty filesystem. -/
theorem C5_test_file_source_rendering_witness :
    ¬ (("/r" ++ sepS ++ "test").length + ("demo" ++ "_test").length +
      (".c" : String).length > PATH_MAX) ∧
    lookupFile (create_files "/r" "demo" ⟨[], []⟩).1.files
        ("/r" ++ sepS ++ "test" ++ sepS ++ ("demo" ++ "_test") ++ ".c") =
      some ("#include \"" ++ ("demo" ++ "_test") ++
        ".h\"\n\n/* Code goes here */\n\n") :=
  ⟨by decide,
   C5_test_file_source_rendering "/r" "demo" ⟨[], []⟩ (by decide) (by decide)⟩

/-- C6 (amended): within the length guard and on a filesystem not
already holding it, the src-directory file `p_app.c` is created with an
`#include` of `p_app.h` (the Source rendering applied to the
`_app`-suffixed name), not of the project header `p.h`. -/
theorem C6_app_file_includes_app_header (d p : String) (fs : FS)
    (hlen : ¬ ((d ++ sepS ++ "src").length + (p ++ "_app").length +
      (".c" : String).length > PATH_MAX))
    (hA : ¬ fs.existsPath
      (d ++ sepS ++ "src" ++ sepS ++ (p ++ "_app") ++ ".c")) :
    lookupFile (create_files d p fs).1.files
        (d ++ sepS ++ "src" ++ sepS ++ (p ++ "_app") ++ ".c") =
      some ("#include \"" ++ (p ++ "_app") ++
        ".h\"\n\n/* Code goes here */\n\n") := by
  have hAL0 : (d ++ sepS ++ "src" ++ sepS ++ (p ++ "_app") ++ ".c") ≠
      (d ++ sepS ++ "lib") ++ sepS ++ p ++ ".h" := by
    apply ne_of_length
    simp only [String.length_append,
      show sepS.length = 1 from rfl,
      show ("src" : String).length = 3 from rfl,
      show ("lib" : String).length = 3 from rfl,
      show ("_app" : String).length = 4 from rfl,
      show (".c" : String).length = 2 from rfl,
      show (".h" : String).length = 2 from rfl]
    omega
  have hAL1 : (d ++ sepS ++ "src" ++ sepS ++ (p ++ "_app") ++ ".c") ≠
      (d ++ sepS ++ "lib") ++ sepS ++ p ++ ".c" := by
    apply ne_of_length
    simp only [String.length_append,
      show sepS.length = 1 from rfl,
      show ("src" : String).length = 3 from rfl,
      show ("lib" : String).length = 3 from rfl,
      show ("_app" : String).length = 4 from rfl,
      show (".c" : String).length = 2 from rfl]
    omega
  have hfst : (create_files d p fs).1 =
      (touch (d ++ sepS ++ "test") (p ++ "_test") ".c"
        (touch (d ++ sepS ++ "src") (p ++ "_app") ".c"
          (touch (d ++ sepS ++ "lib") p ".c"
            (touch (d ++ sepS ++ "lib") p ".h" fs).1).1).1).1 := rfl
  rw [hfst]
  have hA2 : ¬ (touch (d ++ sepS ++ "lib") p ".c"
      (touch (d ++ sepS ++ "lib") p ".h" fs).1).1.existsPath
      (d ++ sepS ++ "src" ++ sepS ++ (p ++ "_app") ++ ".c") := by
    intro hc
    rcases touch_sub _ _ _ _ _ hc with hc | hc
    · rcases touch_sub _ _ _ _ _ hc with hc | hc
      · exact hA hc
      · exact hAL0 hc
    · exact hAL1 hc
  apply touch_keep
  rw [touch_create _ _ _ _ hlen hA2]
  simp only [FS.addFile, lookupFile]
  rw [if_pos trivial,
    show touchContent (p ++ "_app") ".c" =
      "#include \"" ++ (p ++ "_app") ++ ".h\"\n\n/* Code goes here */\n\n" by
        unfold touchContent
        rw [if_neg (by decide), if_pos rfl]]

/-- C6, witness: concrete run on an empty filesystem. -/
theorem C6_app_file_includes_app_header_witness :
    ¬ (("/r" ++ sepS ++ "src").length + ("demo" ++ "_app").length +
      (".c" : String).length > PATH_MAX) ∧
    lookupFile (create_files "/r" "demo" ⟨[], []⟩).1.files
        ("/r" ++ sepS ++ "src" ++ sepS ++ ("demo" ++ "_app") ++ ".c") =
      some ("#include \"" ++ ("demo" ++ "_app") ++
        ".h\"\n\n/* Code goes here */\n\n") :=
  ⟨by decide,
   C6_app_file_includes_app_header "/r" "demo" ⟨[], []⟩ (by decide) (by decide)⟩

/-- A list equal to `a ++ b` has `a` as a prefix. -/
theorem pre_of_eq {α : Type} (a b total : List α) (h : total = a ++ b) :
    a <+: total :=
  ⟨b, h.symm⟩

/-- A list equal to `a ++ (m ++ b)` has `m` as an infix. -/
theorem mid_of_eq {α : Type} (a m b total : List α)
    (h : total = a ++ (m ++ b)) : m <:+: total :=
  ⟨a, b, by rw [h]; exact List.append_assoc a m b⟩

/-- C3 (amended): each generated build file consists of the macro block,
the dependency list `_DEPS = p` rendered with the `.h` suffix, an object
list naming the two objects `p.o` and `p_test.o`, the generic compile
rule, and a phony target building the binary `p_app` from that object
list — with `p` interpolated at exactly four substitution points (four
occurrences for the sample name `demo`), not three. -/
theorem C3_make_structure (p : String) :
    (GCC_MAKE_MACROS.data <+: (make_contents p).data) ∧
    (("_DEPS = " ++ p ++ ".h\n").data <:+: (make_contents p).data) ∧
    (("_OBJ = " ++ p ++ ".o " ++ p ++ "_test.o\n").data <:+:
      (make_contents p).data) ∧
    ("$(ODIR)/%.o: %.c $(DEPS)\n\t$(CC) -c -o $@ $< $(CFLAGS)\n".data <:+:
      (make_contents p).data) ∧
    ((p ++ "_app: $(OBJ)\n").data <:+: (make_contents p).data) ∧
    countOccs "demo".data (make_contents "demo").data = 4 := by
  refine ⟨?_, ?_, ?_, ?_, ?_, ?_⟩
  · exact pre_of_eq _
      ((p ++ GCC_MAKE_DEPS ++ p ++ GCC_MAKE_OBJ ++ p ++ "_test" ++
        GCC_MAKE_OBJ_BUILD ++ p ++ "_app" ++ GCC_MAKE_PHONY).data) _
      (by simp only [make_contents, GCC_MAKE_MACROS, GCC_MAKE_DEPS,
        GCC_MAKE_OBJ, GCC_MAKE_OBJ_BUILD, GCC_MAKE_PHONY, String.data_append,
        List.append_assoc, List.cons_append, List.nil_append])
  · exact mid_of_eq
      ("IDIR =./include\nCC=gcc\nCFLAGS=-I$(IDIR)\nODIR=obj\nLDIR =./lib\nLIBS=\n\n".data)
      _
      (("DEPS = $(patsubst %,$(IDIR)/%,$(_DEPS))\n\n_OBJ = " ++ p ++
        GCC_MAKE_OBJ ++ p ++ "_test" ++ GCC_MAKE_OBJ_BUILD ++ p ++ "_app" ++
        GCC_MAKE_PHONY).data) _
      (by simp only [make_contents, GCC_MAKE_MACROS, GCC_MAKE_DEPS,
        GCC_MAKE_OBJ, GCC_MAKE_OBJ_BUILD, GCC_MAKE_PHONY, String.data_append,
        List.append_assoc, List.cons_append, List.nil_append])
  · exact mid_of_eq
      ((GCC_MAKE_MACROS ++ p ++
        ".h\nDEPS = $(patsubst %,$(IDIR)/%,$(_DEPS))\n\n").data)
      _
      (("OBJ = $(patsubst %,$(ODIR)/%,$(_OBJ))\n\n$(ODIR)/%.o: %.c $(DEPS)\n\t$(CC) -c -o $@ $< $(CFLAGS)\n\n" ++
        p ++ "_app" ++ GCC_MAKE_PHONY).data) _
      (by simp only [make_contents, GCC_MAKE_MACROS, GCC_MAKE_DEPS,
        GCC_MAKE_OBJ, GCC_MAKE_OBJ_BUILD, GCC_MAKE_PHONY, String.data_append,
        List.append_assoc, List.cons_append, List.nil_append])
  · exact mid_of_eq
      ((GCC_MAKE_MACROS ++ p ++ GCC_MAKE_DEPS ++ p ++ GCC_MAKE_OBJ ++ p ++
        "_test" ++ ".o\nOBJ = $(patsubst %,$(ODIR)/%,$(_OBJ))\n\n").data)
      _
      (("\n" ++ p ++ "_app" ++ GCC_MAKE_PHONY).data) _
      (by simp only [make_contents, GCC_MAKE_MACROS, GCC_MAKE_DEPS,
        GCC_MAKE_OBJ, GCC_MAKE_OBJ_BUILD, GCC_MAKE_PHONY, String.data_append,
        List.append_assoc, List.cons_append, List.nil_append])
  · exact mid_of_eq
      ((GCC_MAKE_MACROS ++ p ++ GCC_MAKE_DEPS ++ p ++ GCC_MAKE_OBJ ++ p ++
        "_test" ++ GCC_MAKE_OBJ_BUILD).data)
      _
      ("\tgcc -o $@ $^ $(CFLAGS) $(LIBS)\n\n.PHONY: clean\n\nclean:".data) _
      (by simp only [make_contents, GCC_MAKE_MACROS, GCC_MAKE_DEPS,
        GCC_MAKE_OBJ, GCC_MAKE_OBJ_BUILD, GCC_MAKE_PHONY, String.data_append,
        List.append_assoc, List.cons_append, List.nil_append])
  · decide

end Projc
